import Mathlib

set_option maxRecDepth 4000

/-!
Verification development for the Verifiy repository.

The definitions below are a shallow embedding of the parts of the code the
claims refer to:
  * `src/main/tokenManager.ts` — the `TokenManager` class (token storage,
    validity checks, refresh, clearing);
  * `src/main/geminiService.ts` — the `ListeningAgent` Live-API client,
    `runFactCheck`, and `processSources`;
  * the main-process entry file — the `start-session` IPC handler and the
    OAuth loopback callback server of `startOAuthFlow`;
  * `src/renderer/src/services/geminiService.ts` — `verifyClaimWithSearch`
    with its model-tier fallback.

Host-environment functionality (the network, `JSON.parse`) is modelled by
explicit oracle parameters; every function of the repository itself is
translated clause by clause from the TypeScript source.
-/

namespace Verifiy

/-! ## Token manager (`src/main/tokenManager.ts`) -/

/-- Token refresh buffer: refresh 5 minutes before expiry (`REFRESH_BUFFER_MS`). -/
def REFRESH_BUFFER_MS : Int := 5 * 60 * 1000

/-- The parsed token-endpoint response body (`interface TokenData`).
`refresh_token` is optional; times are in seconds (`expires_in`). -/
structure TokenData where
  access_token : String
  refresh_token : Option String
  expires_in : Int
  token_type : String
deriving Repr, DecidableEq

/-- The mutable fields of the `TokenManager` singleton, together with the
state of the resources it owns: whether a one-shot refresh timer is armed
(and for which absolute time), whether an immediate asynchronous refresh was
kicked off by `scheduleRefresh`, and whether the persisted credential file
exists on disk. -/
structure TMState where
  accessToken : Option String
  refreshToken : Option String
  expiresAt : Option Int
  refreshTimer : Option Int
  immediateRefreshPending : Bool
  fileExists : Bool
deriving Repr, DecidableEq

/-- `isExpiringSoon()`: true when there is no expiry recorded, or when
`Date.now() > expiresAt - REFRESH_BUFFER_MS`. -/
def isExpiringSoon (s : TMState) (now : Int) : Bool :=
  match s.expiresAt with
  | none => true
  | some e => now > e - REFRESH_BUFFER_MS

/-- `scheduleRefresh()`: clear any existing timer; if an expiry and a refresh
token are present, either trigger an immediate asynchronous refresh (when the
refresh moment already passed) or arm a one-shot timer for
`expiresAt - REFRESH_BUFFER_MS`. -/
def scheduleRefresh (s : TMState) (now : Int) : TMState :=
  let s0 := { s with refreshTimer := none }
  match s.expiresAt, s.refreshToken with
  | some e, some _ =>
      if e - now - REFRESH_BUFFER_MS ≤ 0 then
        { s0 with immediateRefreshPending := true }
      else
        { s0 with refreshTimer := some (e - REFRESH_BUFFER_MS) }
  | _, _ => s0

/-- `storeTokens(tokenData)`: record the access token, set
`expiresAt = Date.now() + expires_in * 1000`, adopt and persist the refresh
token only when the response carries one, then (re)schedule the background
refresh. -/
def storeTokens (s : TMState) (td : TokenData) (now : Int) : TMState :=
  let s1 := { s with
    accessToken := some td.access_token
    expiresAt := some (now + td.expires_in * 1000) }
  let s2 :=
    match td.refresh_token with
    | some r => { s1 with refreshToken := some r, fileExists := true }
    | none => s1
  scheduleRefresh s2 now

/-- The outcome of the token-endpoint `fetch` performed by
`refreshAccessToken`, as seen by the caller: the request (or the JSON body
parse) threw, or the server answered with a non-2xx status, or it answered
2xx with a parsed `TokenData`. -/
inductive RefreshOutcome where
  | networkError
  | httpError (status : Nat)
  | success (td : TokenData)
deriving Repr, DecidableEq

/-- `clearTokens()`: wipe the in-memory token fields, cancel the refresh
timer, and delete the persisted credential file. -/
def clearTokens (_s : TMState) : TMState :=
  { accessToken := none
    refreshToken := none
    expiresAt := none
    refreshTimer := none
    immediateRefreshPending := false
    fileExists := false }

/-- `refreshAccessToken()`: with no refresh token, return `null` untouched.
Otherwise the outcome of the POST decides: a thrown error leaves the state
untouched and returns `null`; a non-2xx status of 400 or 401 clears all
token state (and the file) and returns `null`; any other non-2xx status
leaves the state untouched and returns `null`; a 2xx response is stored via
`storeTokens` and the new access token is returned. -/
def refreshAccessToken (s : TMState) (now : Int) (o : RefreshOutcome) :
    TMState × Option String :=
  match s.refreshToken with
  | none => (s, none)
  | some _ =>
    match o with
    | .networkError => (s, none)
    | .httpError status =>
        if status = 400 ∨ status = 401 then (clearTokens s, none)
        else (s, none)
    | .success td =>
        let s' := storeTokens s td now
        (s', s'.accessToken)

/-- `getValidToken()`: `null` when neither an access token nor a refresh
token exists; a refresh (whose result is returned) when the token is absent,
expired or expiring within the safety margin; the stored access token
otherwise. -/
def getValidToken (s : TMState) (now : Int) (o : RefreshOutcome) :
    TMState × Option String :=
  if s.accessToken = none ∧ s.refreshToken = none then (s, none)
  else if isExpiringSoon s now then refreshAccessToken s now o
  else (s, s.accessToken)

/-! ## Listening agent (`src/main/geminiService.ts`, class `ListeningAgent`) -/

/-- One `functionCalls[]` entry of an inbound `toolCall` frame. -/
structure FunctionCall where
  name : String
  argsTitle : String
  argsText : String
  id : Option String
deriving Repr, DecidableEq

/-- Inbound server frames, dispatched by shape in `handleServerMessage`. -/
inductive ServerMessage where
  | setupComplete
  | toolCall (calls : List FunctionCall)
  | serverContent (payload : String)
  | unrecognized
deriving Repr, DecidableEq

/-- The observable effects an agent method performs: an `EventEmitter.emit`,
a `notifyRenderer` IPC send (tagged with the `type` field), or a frame sent
on the WebSocket. -/
inductive AgentEffect where
  | emit (event : String)
  | notifyRenderer (typ : String)
  | wsSendSetup
  | wsSendToolResponse (callId : Option String)
deriving Repr, DecidableEq

/-- `sendSetupMessage()`: send the setup frame, then emit `setup_complete`
and notify the renderer with a `setup_complete` message. -/
def sendSetupMessage : List AgentEffect :=
  [.wsSendSetup, .emit "setup_complete", .notifyRenderer "setup_complete"]

/-- The `ws.on('open')` handler: `sendSetupMessage()` then `emit('open')`. -/
def onOpenEffects : List AgentEffect :=
  sendSetupMessage ++ [.emit "open"]

/-- `handleServerMessage(message)`: a `setupComplete` frame is only logged
(no effect); a `toolCall` frame emits `claim_detected`, notifies the
renderer with `tool_call`, and acknowledges with a tool-response frame for
each `detect_claim` call; a `serverContent` frame is forwarded as a
`server_content` event and renderer message. -/
def handleServerMessage (m : ServerMessage) : List AgentEffect :=
  match m with
  | .setupComplete => []
  | .toolCall calls =>
      calls.flatMap fun c =>
        if c.name = "detect_claim" then
          [.emit "claim_detected", .notifyRenderer "tool_call",
           .wsSendToolResponse c.id]
        else []
  | .serverContent _ => [.emit "server_content", .notifyRenderer "server_content"]
  | .unrecognized => []

/-! ## `start-session` IPC handler (main entry file) -/

/-- The lifecycle status of a `ListeningAgent` instance: non-terminal from
construction until `disconnect()` closes its connection. -/
inductive SessStatus where
  | nonTerminal
  | terminal
deriving Repr, DecidableEq

/-- The main-process state relevant to session management: the
`listeningAgent` module variable (an agent id or `null`), a fresh-id
counter, and the statuses of every agent created so far. -/
structure MainState where
  listeningAgent : Option Nat
  nextId : Nat
  statuses : List (Nat × SessStatus)
deriving Repr, DecidableEq

/-- The primitive steps the `start-session` handler performs on sessions, in
program order. -/
inductive SessAction where
  | disconnect (id : Nat)
  | create (id : Nat)
  | connect (id : Nat)
deriving Repr, DecidableEq

/-- Mark one agent's status terminal (the effect of `disconnect()`). -/
def markTerminal (id : Nat) (l : List (Nat × SessStatus)) :
    List (Nat × SessStatus) :=
  l.map fun p => if p.1 = id then (p.1, .terminal) else p

/-- The `ipcMain.on('start-session')` handler: first disconnect and null out
any existing `listeningAgent`; then await `tokenManager.getValidToken()`
(its result is the `tok` parameter); on `null` report an error and return;
otherwise construct a fresh `ListeningAgent` with the token and call
`connect()` on it. The returned list records the session steps in program
order. -/
def startSessionHandler (st : MainState) (tok : Option String) :
    MainState × List SessAction :=
  let (st1, acts1) :=
    match st.listeningAgent with
    | some id =>
        ({ st with listeningAgent := none, statuses := markTerminal id st.statuses },
         [SessAction.disconnect id])
    | none => (st, [])
  match tok with
  | none => (st1, acts1)
  | some _ =>
      let id := st1.nextId
      ({ listeningAgent := some id
         nextId := id + 1
         statuses := (id, .nonTerminal) :: st1.statuses },
       acts1 ++ [SessAction.create id, SessAction.connect id])

/-- The `ipcMain.on('stop-session')` handler: disconnect and null out the
agent when one exists. -/
def stopSessionHandler (st : MainState) : MainState × List SessAction :=
  match st.listeningAgent with
  | some id =>
      ({ st with listeningAgent := none, statuses := markTerminal id st.statuses },
       [SessAction.disconnect id])
  | none => (st, [])

/-- The number of non-terminal sessions recorded in a status list. -/
def nonTerminalCount (l : List (Nat × SessStatus)) : Nat :=
  (l.filter fun p => p.2 = SessStatus.nonTerminal).length

/-- The invariant the main process maintains: every non-terminal agent is
the current `listeningAgent`, recorded ids are distinct, and all recorded
ids are below the fresh-id counter. -/
def MainInv (st : MainState) : Prop :=
  (∀ p ∈ st.statuses, p.2 = SessStatus.nonTerminal → st.listeningAgent = some p.1)
  ∧ (st.statuses.map Prod.fst).Nodup
  ∧ (∀ p ∈ st.statuses, p.1 < st.nextId)

/-! ## OAuth loopback callback server (`startOAuthFlow`, main entry file) -/

/-- One HTTP request as decoded by the callback handler: the URL path and
the `code`, `error` and `state` query parameters (`searchParams.get`
returns `null` for a missing parameter). -/
structure CallbackRequest where
  pathname : String
  code : Option String
  error : Option String
  state : Option String
deriving Repr, DecidableEq

/-- What one run of the callback handler did: the HTTP status written, did
`oauthServer.close()` run (so no further connection is accepted), was
`exchangeCodeForToken` invoked, and was `tokenManager.storeTokens` invoked. -/
structure CallbackResult where
  httpStatus : Nat
  serverClosed : Bool
  exchangeCalled : Bool
  tokensStored : Bool
deriving Repr, DecidableEq

/-- `exchangeCodeForToken`'s observable outcome, decided by the token
endpoint: `none` on a thrown error or non-2xx status (both logged and
returning `null`), `some` on a parsed 2xx body. -/
def exchangeCodeForToken (endpointOutcome : RefreshOutcome) : Option TokenData :=
  match endpointOutcome with
  | .networkError => none
  | .httpError _ => none
  | .success td => some td

/-- The request handler installed by `createServer` in `startOAuthFlow`:
a non-`/` path gets a 404 and the handler returns (server left open); a
`state` differing from the stored `oauthState` gets a 400 security error and
the server closes; an `error` parameter gets a 200 failure page and the
server closes; a missing `code` gets a 400 and the handler returns (server
left open); otherwise the code is exchanged, a 2xx exchange result is stored
in the token manager when the main window exists, the response is written
(200 on success, 500 had the exchange thrown), and the server closes. -/
def oauthCallbackHandler (oauthState : Option String) (mainWindowExists : Bool)
    (endpointOutcome : RefreshOutcome) (req : CallbackRequest) : CallbackResult :=
  if req.pathname ≠ "/" then
    { httpStatus := 404, serverClosed := false
      exchangeCalled := false, tokensStored := false }
  else if req.state ≠ oauthState then
    { httpStatus := 400, serverClosed := true
      exchangeCalled := false, tokensStored := false }
  else if req.error.isSome then
    { httpStatus := 200, serverClosed := true
      exchangeCalled := false, tokensStored := false }
  else if req.code = none then
    { httpStatus := 400, serverClosed := false
      exchangeCalled := false, tokensStored := false }
  else
    let tokenData := exchangeCodeForToken endpointOutcome
    { httpStatus := 200, serverClosed := true
      exchangeCalled := true
      tokensStored := tokenData.isSome && mainWindowExists }

/-! ## String and URL utilities (modelling host `String`/`URL` behaviour) -/

/-- The `{` character (written by code point to keep string literals plain). -/
def lbrace : Char := Char.ofNat 123

/-- The `}` character (written by code point). -/
def rbrace : Char := Char.ofNat 125

/-- First index at which `pat` occurs in `s` (as `String.prototype.indexOf`). -/
def findSubAux (s pat : List Char) (i : Nat) : Option Nat :=
  match s with
  | [] => if pat = [] then some i else none
  | _ :: rest =>
      if pat.isPrefixOf s then some i else findSubAux rest pat (i + 1)

/-- First index of `pat` inside `s`, if any. -/
def findSub (s pat : String) : Option Nat :=
  findSubAux s.data pat.data 0

/-- `s.includes(pat)` of JavaScript strings. -/
def containsSub (s pat : String) : Bool :=
  (findSub s pat).isSome

/-- `s.replace(pat, '')`: remove the first occurrence of `pat`, if any. -/
def replaceFirst (s pat : String) : String :=
  match findSub s pat with
  | none => s
  | some i => ⟨s.data.take i ++ s.data.drop (i + pat.length)⟩

/-- Value of one hexadecimal digit. -/
def hexVal (c : Char) : Option Nat :=
  if '0' ≤ c ∧ c ≤ '9' then some (c.toNat - 48)
  else if 'a' ≤ c ∧ c ≤ 'f' then some (c.toNat - 87)
  else if 'A' ≤ c ∧ c ≤ 'F' then some (c.toNat - 55)
  else none

/-- Percent-decoding of a query-string component, with `+` decoded to a
space (`URLSearchParams` semantics). -/
def percentDecodeAux : List Char → List Char
  | [] => []
  | '%' :: a :: b :: rest =>
      match hexVal a, hexVal b with
      | some x, some y => Char.ofNat (16 * x + y) :: percentDecodeAux rest
      | _, _ => '%' :: percentDecodeAux (a :: b :: rest)
  | '+' :: rest => ' ' :: percentDecodeAux rest
  | c :: rest => c :: percentDecodeAux rest

/-- Percent-decoding on strings. -/
def percentDecode (s : String) : String :=
  ⟨percentDecodeAux s.data⟩

/-- The parts of a WHATWG `URL` object the code reads: the (lowercased)
hostname and the decoded query parameters in order. -/
structure UrlObj where
  hostname : String
  query : List (String × String)
deriving Repr, DecidableEq

/-- Split a character list at every occurrence of a separator. -/
def splitOnCharAux (sep : Char) : List Char → List Char → List (List Char)
  | [], acc => [acc.reverse]
  | c :: rest, acc =>
      if c = sep then acc.reverse :: splitOnCharAux sep rest []
      else splitOnCharAux sep rest (c :: acc)

/-- Split a string at every occurrence of a separator character. -/
def splitOnChar (sep : Char) (s : String) : List String :=
  (splitOnCharAux sep s.data []).map List.asString

/-- Parse a query string (without the leading `?`) into decoded key/value
pairs, `URLSearchParams`-style: split on `&`, drop empty pieces, split each
piece at its first `=` (a piece without `=` has an empty value). -/
def parseQuery (qs : String) : List (String × String) :=
  (splitOnChar '&' qs).filterMap fun piece =>
    if piece = "" then none
    else
      match findSub piece "=" with
      | none => some (percentDecode piece, "")
      | some i =>
          some (percentDecode ⟨piece.data.take i⟩,
                percentDecode ⟨piece.data.drop (i + 1)⟩)

/-- `new URL(s)`: `none` models the constructor throwing. A URL is accepted
when it has a nonempty scheme followed by `://` and a nonempty authority;
the hostname is the authority after the last `@`, before any `:` port, and
is lowercased; the query runs from the first `?` after the authority up to
any `#`. -/
def urlParse (s : String) : Option UrlObj :=
  match findSub s "://" with
  | none => none
  | some i =>
    if i = 0 then none
    else
      let rest := s.data.drop (i + 3)
      let auth := rest.takeWhile fun c => c != '/' && c != '?' && c != '#'
      if auth = [] then none
      else
        let hostPort :=
          match auth.reverse.findIdx? (· = '@') with
          | none => auth
          | some k => auth.drop (auth.length - k)
        let hostname := (hostPort.takeWhile (· != ':')).map Char.toLower
        let afterAuth := rest.drop auth.length
        let query :=
          match afterAuth.findIdx? (· = '?') with
          | none => []
          | some q =>
              parseQuery ⟨(afterAuth.drop (q + 1)).takeWhile (· != '#')⟩
        some { hostname := ⟨hostname⟩, query := query }

/-- `urlObj.searchParams.get(name)`: the value of the first pair with the
given key, or `null`. -/
def getParam (u : UrlObj) (name : String) : Option String :=
  (u.query.find? fun p => p.1 = name).map Prod.snd

/-- JavaScript `a || d` for an optional string `a`: the default replaces
both a missing and an empty string. -/
def optFalsyD (o : Option String) (d : String) : String :=
  match o with
  | some s => if s = "" then d else s
  | none => d

/-- JavaScript `n || d` for an optional number `n`: the default replaces
both a missing value and `0`. -/
def intFalsyD (o : Option Int) (d : Int) : Int :=
  match o with
  | some n => if n = 0 then d else n
  | none => d

/-! ## Source processing (`processSources` in `src/main/geminiService.ts`) -/

/-- One raw candidate source, from the model JSON (`title`/`url`) or from
grounding metadata (`title`/`uri`); every field may be absent. -/
structure RawSource where
  title : Option String
  uri : Option String
  url : Option String
deriving Repr, DecidableEq

/-- A cleaned source as returned to the UI. -/
structure Source where
  title : String
  uri : String
deriving Repr, DecidableEq

/-- Step B of the resolver `try` block: a URI containing `vertexaisearch` or
`grounding-api-redirect` is resolved by a HEAD request following redirects;
`headResolve` gives the final `response.url`, `none` modelling a thrown
fetch error (caught, keeping the URI assigned so far). -/
def headStep (headResolve : String → Option String) (uri : String) : String :=
  if containsSub uri "vertexaisearch" || containsSub uri "grounding-api-redirect" then
    match headResolve uri with
    | some finalUrl => finalUrl
    | none => uri
  else uri

/-- `urlObj.searchParams.get('url') || urlObj.searchParams.get('q')`: the
`url` parameter unless it is missing or empty, else the `q` parameter. -/
def extractedParam (u : UrlObj) : Option String :=
  match getParam u "url" with
  | some v => if v = "" then getParam u "q" else some v
  | none => getParam u "q"

/-- The resolver `try` block run on a redirect URI. Step A (for
`google.com/url` links, no network): parse the URI — a constructor throw
aborts the whole block with the URI unchanged — and take the `url` query
parameter, falling back to `q` when `url` is missing or empty; a non-empty
extracted value replaces the URI. Step B then HEAD-resolves any remaining
internal redirect host. -/
def resolveRedirect (headResolve : String → Option String) (uri : String) : String :=
  if containsSub uri "google.com/url" then
    match urlParse uri with
    | none => uri
    | some u =>
        let extracted := extractedParam u
        let uri' :=
          match extracted with
          | some v => if v = "" then uri else v
          | none => uri
        headStep headResolve uri'
  else headStep headResolve uri

/-- The per-source body of `processSources`: read `uri` (falling back to
`url`) and `title` (defaulting to `"Quelle"`); resolve known redirect
wrappers; recompute the title from the resolved hostname with the first
`www.` removed when the original title is missing, mentions `google.com`,
or defaulted to `"Quelle"` (an unparseable URI keeps the title); finally
drop the source if its URI still points at an internal redirect host. -/
def processSource (headResolve : String → Option String) (source : RawSource) :
    Option Source :=
  let uri0 := optFalsyD source.uri (optFalsyD source.url "")
  let title0 := optFalsyD source.title "Quelle"
  let isRedirect := containsSub uri0 "google.com/url"
    || containsSub uri0 "vertexaisearch"
    || containsSub uri0 "grounding-api-redirect"
  let uri1 := if isRedirect && uri0 != "" then resolveRedirect headResolve uri0 else uri0
  let title1 :=
    match urlParse uri1 with
    | some u =>
        let domain := replaceFirst u.hostname "www."
        if source.title = none ∨ source.title = some ""
            ∨ containsSub (source.title.getD "") "google.com"
            ∨ title0 = "Quelle" then
          domain
        else title0
    | none => title0
  if containsSub uri1 "vertexaisearch" || containsSub uri1 "grounding-api-redirect" then
    none
  else some { title := title1, uri := uri1 }

/-- `processSources(rawSources)`: clean the first five candidates and keep
the non-dropped results in order. -/
def processSources (headResolve : String → Option String)
    (rawSources : List RawSource) : List Source :=
  (rawSources.take 5).filterMap (processSource headResolve)

/-! ## Fact check (`runFactCheck` in `src/main/geminiService.ts`) -/

/-- The regex `\x7b[\s\S]*\x7d` of the JSON extraction: the substring from
the first `{` to the last `}` when the latter is not earlier, else no
match. -/
def extractJsonBlock (text : String) : Option String :=
  let cs := text.data
  match cs.findIdx? (· = lbrace), cs.reverse.findIdx? (· = rbrace) with
  | some i, some jr =>
      let j := cs.length - 1 - jr
      if i ≤ j then some ⟨(cs.drop i).take (j - i + 1)⟩ else none
  | _, _ => none

/-- The string `"\x7b\x7d"` (an empty JSON object literal). -/
def emptyJsonObject : String :=
  ⟨[lbrace, rbrace]⟩

/-- The object `JSON.parse` produced for the fact-check response, every
field possibly absent. -/
structure FactJson where
  verdict : Option String
  explanation : Option String
  score : Option Int
  sources : Option (List RawSource)

/-- What `runFactCheck` returns (after a 2xx upstream response). -/
structure FactCheckReturn where
  verdict : String
  explanation : String
  score : Int
  sources : List Source
deriving Repr, DecidableEq

/-- The response-processing tail of `runFactCheck`, given a 2xx upstream
response: `candText` is `candidate?.content?.parts?.[0]?.text` (`|| ' '`
defaulted to the empty JSON object), `groundingWebs` the `chunk.web` values
of the grounding metadata, `jsonParse` models `JSON.parse` (`none` = throw).
The first JSON block of the text is parsed — a parse throw yields the fixed
degraded object; source candidates come from the parsed `sources` array when
it is non-empty, else from the grounding chunks having a truthy `uri`; the
final fields default missing or falsy values (`verdict` to `Unverified`,
`explanation` to a fixed message, `score` to `0`). -/
def runFactCheckFromResponse (jsonParse : String → Option FactJson)
    (headResolve : String → Option String) (candText : Option String)
    (groundingWebs : List (Option RawSource)) : FactCheckReturn :=
  let text := optFalsyD candText emptyJsonObject
  let jsonText := (extractJsonBlock text).getD emptyJsonObject
  let result : FactJson :=
    match jsonParse jsonText with
    | some r => r
    | none =>
        { verdict := some "Unverified"
          explanation := some "Failed to parse model response."
          score := some 0
          sources := none }
  let candidates : List RawSource :=
    match result.sources with
    | some l => if l.length > 0 then l else
        (groundingWebs.filterMap id).filter fun w => optFalsyD w.uri "" != ""
    | none =>
        (groundingWebs.filterMap id).filter fun w => optFalsyD w.uri "" != ""
  let limitedSources := processSources headResolve candidates
  { verdict := optFalsyD result.verdict "Unverified"
    explanation := optFalsyD result.explanation "No explanation provided."
    score := intFalsyD result.score 0
    sources := limitedSources }

/-! ## Renderer claim verification
(`verifyClaimWithSearch` in `src/renderer/src/services/geminiService.ts`) -/

/-- The parsed verification object; `JSON.parse`'s unchecked cast means any
field may really be absent. -/
structure RawVerification where
  verdict : Option String
  score : Option Int
  explanation : Option String
deriving Repr, DecidableEq

/-- `verifyClaimWithSearch`'s return value: the verification object and the
extracted sources. -/
structure VerifyReturn where
  result : RawVerification
  sources : List Source
deriving Repr, DecidableEq

/-- A grounding chunk's `web` field as read by `extractSources`:
`title`/`uri` are present iff they are strings. -/
structure WebChunk where
  title : Option String
  uri : Option String
deriving Repr, DecidableEq

/-- The `extractSources` helper: keep each `chunk.web` that exists and has
string `title` and `uri`. -/
def extractSources (grounding : List (Option WebChunk)) : List Source :=
  grounding.filterMap fun w =>
    match w with
    | some web =>
        match web.title, web.uri with
        | some t, some u => some { title := t, uri := u }
        | _, _ => none
    | none => none

/-- JavaScript whitespace (`\s`) on the characters that occur here. -/
def isJsSpace (c : Char) : Bool :=
  c = ' ' || c = '\t' || c = '\n' || c = '\r' || c = (Char.ofNat 12) || c = (Char.ofNat 11)

/-- Case-insensitive prefix test keeping the original characters. -/
def ciHeads (pat : List Char) (s : List Char) : Bool :=
  (pat.map Char.toLower).isPrefixOf (s.map Char.toLower)

/-- Scan for `/VERDICT:\s*(True|False|Mixed|Unverified)/i`: at the first
position where the whole pattern matches, return the captured alternative
with its original casing. -/
def scanVerdict : List Char → Option String
  | [] => none
  | c :: rest =>
      if ciHeads "VERDICT:".data (c :: rest) then
        let afterKey := (c :: rest).drop 8
        let afterSpace := afterKey.dropWhile isJsSpace
        if ciHeads "True".data afterSpace then some ⟨afterSpace.take 4⟩
        else if ciHeads "False".data afterSpace then some ⟨afterSpace.take 5⟩
        else if ciHeads "Mixed".data afterSpace then some ⟨afterSpace.take 5⟩
        else if ciHeads "Unverified".data afterSpace then some ⟨afterSpace.take 10⟩
        else scanVerdict rest
      else scanVerdict rest

/-- Scan for `/SCORE:\s*(\d)/i`: the first digit after a `SCORE:` label. -/
def scanScore : List Char → Option Int
  | [] => none
  | c :: rest =>
      if ciHeads "SCORE:".data (c :: rest) then
        let afterSpace := ((c :: rest).drop 6).dropWhile isJsSpace
        match afterSpace with
        | d :: _ => if d.isDigit then some ((d.toNat : Int) - 48) else scanScore rest
        | [] => scanScore rest
      else scanScore rest

/-- `String.prototype.trim()`: strip leading and trailing whitespace. -/
def jsTrim (s : String) : String :=
  ⟨((s.data.dropWhile isJsSpace).reverse.dropWhile isJsSpace).reverse⟩

/-- Scan for `/EXPLANATION:\s*(.+)/i`: the rest of the line after an
`EXPLANATION:` label and any whitespace, trimmed. -/
def scanExplanation : List Char → Option String
  | [] => none
  | c :: rest =>
      if ciHeads "EXPLANATION:".data (c :: rest) then
        let afterSpace := ((c :: rest).drop 12).dropWhile isJsSpace
        let captured := afterSpace.takeWhile (· != '\n')
        if captured = [] then scanExplanation rest
        else some (jsTrim (String.mk captured))
      else scanExplanation rest

/-- `parseTextVerificationResult(text)`: the model-3 text-format parser —
`null` unless all three labelled fields are found. -/
def parseTextVerificationResult (text : String) : Option RawVerification :=
  match scanVerdict text.data, scanScore text.data, scanExplanation text.data with
  | some v, some sc, some ex =>
      some { verdict := some v, score := some sc, explanation := some ex }
  | _, _, _ => none

/-- One upstream `generateContent` behaviour: the call threw, or returned a
response with an optional `text` and grounding chunks. -/
inductive GenOutcome where
  | thrown (msg : String)
  | ok (text : Option String) (grounding : List (Option WebChunk))

/-- The environment a `verifyClaimWithSearch` run executes against: whether
the client is initialized (`getClient` throws otherwise), the upstream
behaviour of the single model-3 call and of each fallback model-2 attempt,
and `JSON.parse` on the extracted JSON (`none` = throw). -/
structure VerifyEnv where
  clientOk : Bool
  m3 : GenOutcome
  m2 : Nat → GenOutcome
  jsonParse : String → Option RawVerification

/-- The computation model for the renderer service: a JS computation either
throws a message or returns a value, and appends each model actually called
on the upstream to a trace that survives exceptions. -/
def JsM (α : Type) : Type :=
  List String → Except String α × List String

/-- Return a value. -/
def jsPure {α : Type} (a : α) : JsM α := fun tr => (.ok a, tr)

/-- `throw` of JavaScript. -/
def jsThrow {α : Type} (msg : String) : JsM α := fun tr => (.error msg, tr)

/-- Sequencing: an exception propagates past the continuation. -/
def jsBind {α β : Type} (m : JsM α) (f : α → JsM β) : JsM β := fun tr =>
  match m tr with
  | (.ok a, tr') => f a tr'
  | (.error e, tr') => (.error e, tr')

/-- `try { m } catch (e) { h e }`. -/
def jsCatch {α : Type} (m : JsM α) (h : String → JsM α) : JsM α := fun tr =>
  match m tr with
  | (.ok a, tr') => (.ok a, tr')
  | (.error e, tr') => h e tr'

/-- Record one upstream model call in the trace. -/
def recordCall (model : String) : JsM Unit := fun tr => (.ok (), tr ++ [model])

/-- The fail-fast higher tier model name (`model3`). -/
def model3Name : String := "gemini-3-flash-preview"

/-- The fallback tier model name (`model2`). -/
def model2Name : String := "gemini-2.5-flash-preview-09-2025"

/-- `getClient().models.generateContent(...)`: `getClient()` throws when the
client was never initialized; otherwise the upstream is called (recorded in
the trace) and behaves as the environment dictates. -/
def generateContent (env : VerifyEnv) (model : String) (o : GenOutcome) :
    JsM (Option String × List (Option WebChunk)) :=
  if env.clientOk then
    jsBind (recordCall model) fun _ =>
      match o with
      | .thrown m => jsThrow m
      | .ok t g => jsPure (t, g)
  else
    jsThrow "Gemini client not initialized. Call connectWithApiKey() first."

/-- Attempt 1 of `verifyClaimWithSearch`: the single model-3 try — on a
response, parse the text format and return on success; a parse failure or a
caught exception falls through to the fallback (`none`). -/
def attempt3 (env : VerifyEnv) : JsM (Option VerifyReturn) :=
  jsCatch
    (jsBind (generateContent env model3Name env.m3) fun r =>
      let responseText := optFalsyD r.1 ""
      match parseTextVerificationResult responseText with
      | some res => jsPure (some { result := res, sources := extractSources r.2 })
      | none => jsPure none)
    (fun _ => jsPure none)

/-- The body of one model-2 fallback attempt: call the upstream, extract the
first JSON block of the text (defaulting to an empty object), `JSON.parse`
it (throwing on malformed JSON), and return the result with the extracted
sources. -/
def m2AttemptBody (env : VerifyEnv) (i : Nat) : JsM VerifyReturn :=
  jsBind (generateContent env model2Name (env.m2 i)) fun r =>
    let responseText := optFalsyD r.1 emptyJsonObject
    let jsonText := (extractJsonBlock responseText).getD emptyJsonObject
    match env.jsonParse jsonText with
    | none => jsThrow "SyntaxError"
    | some res => jsPure { result := res, sources := extractSources r.2 }

/-- The model-2 retry loop (`maxRetries = 3`): each attempt's exception is
caught and the loop continues; a success returns immediately. -/
def m2Loop (env : VerifyEnv) : Nat → Nat → JsM (Option VerifyReturn)
  | _, 0 => jsPure none
  | attempt, remaining + 1 =>
      jsBind (jsCatch (jsBind (m2AttemptBody env attempt) fun v => jsPure (some v))
          (fun _ => jsPure none)) fun res =>
        match res with
        | some v => jsPure (some v)
        | none => m2Loop env (attempt + 1) remaining

/-- The degraded result returned when every attempt failed. -/
def degradedReturn : VerifyReturn :=
  { result :=
      { verdict := some "Unverified"
        score := some 0
        explanation := some "Could not verify claim due to an error." }
    sources := [] }

/-- `verifyClaimWithSearch(claimText)`: one fail-fast model-3 attempt, then
up to three model-2 attempts, then the degraded `Unverified` result. -/
def verifyClaimWithSearch (env : VerifyEnv) : JsM VerifyReturn :=
  jsBind (attempt3 env) fun r3 =>
    match r3 with
    | some v => jsPure v
    | none =>
        jsBind (m2Loop env 0 3) fun r2 =>
          match r2 with
          | some v => jsPure v
          | none => jsPure degradedReturn

/-- What the model-3 attempt yields once its exceptions are caught: `none`
when the call threw or the text format did not parse. -/
def m3Result (env : VerifyEnv) : Option VerifyReturn :=
  match env.m3 with
  | .thrown _ => none
  | .ok t g =>
      match parseTextVerificationResult (optFalsyD t "") with
      | some res => some { result := res, sources := extractSources g }
      | none => none

/-- What fallback attempt `i` yields once its exceptions are caught: `none`
when the call threw or `JSON.parse` threw on the extracted block. -/
def m2Result (env : VerifyEnv) (i : Nat) : Option VerifyReturn :=
  match env.m2 i with
  | .thrown _ => none
  | .ok t g =>
      let responseText := optFalsyD t emptyJsonObject
      let jsonText := (extractJsonBlock responseText).getD emptyJsonObject
      match env.jsonParse jsonText with
      | none => none
      | some res => some { result := res, sources := extractSources g }

/-! ## Theorems -/

/-- Helper: a `toolCall` dispatch never emits a `setup_complete` event. -/
lemma toolCall_no_setup_complete (calls : List FunctionCall) :
    (handleServerMessage (ServerMessage.toolCall calls)).count
      (AgentEffect.emit "setup_complete") = 0 := by
  induction calls with
  | nil => rfl
  | cons c rest ih =>
      simp only [handleServerMessage, List.flatMap_cons] at ih ⊢
      rw [List.count_append]
      split <;> simp_all [List.count_cons]

/-- C5: a callback request whose `state` query parameter differs from the
generated state never reaches the token endpoint and stores no tokens; on
the callback path it is answered with a 400 security error and the listener
is closed. -/
theorem C5_state_mismatch_aborts (oauthState : Option String)
    (mw : Bool) (eo : RefreshOutcome) (req : CallbackRequest)
    (hstate : req.state ≠ oauthState) :
    (oauthCallbackHandler oauthState mw eo req).exchangeCalled = false
    ∧ (oauthCallbackHandler oauthState mw eo req).tokensStored = false
    ∧ (req.pathname = "/" →
        oauthCallbackHandler oauthState mw eo req =
          { httpStatus := 400, serverClosed := true
            exchangeCalled := false, tokensStored := false }) := by
  unfold oauthCallbackHandler
  by_cases hp : req.pathname = "/" <;> simp [hp, hstate]

/-- C5 witness: a concrete mismatching callback is rejected without a token
exchange. -/
theorem C5_state_mismatch_aborts_witness :
    (oauthCallbackHandler (some "good") true RefreshOutcome.networkError
        { pathname := "/", code := some "c", error := none, state := some "evil" }).exchangeCalled = false
    ∧ (oauthCallbackHandler (some "good") true RefreshOutcome.networkError
        { pathname := "/", code := some "c", error := none, state := some "evil" }) =
          { httpStatus := 400, serverClosed := true
            exchangeCalled := false, tokensStored := false } := by
  have h := C5_state_mismatch_aborts (some "good") true RefreshOutcome.networkError
    { pathname := "/", code := some "c", error := none, state := some "evil" } (by decide)
  exact ⟨h.1, h.2.2 rfl⟩

/-- C6 counterexample: a request to a path other than `/` (such as the
browser's `favicon.ico` probe) is served without shutting the listener
down, so the listener does not shut down after serving one request
regardless of outcome. -/
theorem C6_one_shot_counterexample :
    (oauthCallbackHandler (some "s") true RefreshOutcome.networkError
      { pathname := "/favicon.ico", code := none, error := none, state := none }).serverClosed
      = false
    ∧ (oauthCallbackHandler (some "s") true RefreshOutcome.networkError
      { pathname := "/", code := none, error := none, state := some "s" }).serverClosed
      = false := by
  constructor <;> rfl

/-- C6 (amended): the callback listener closes itself exactly after serving
a request on path `/` that carries a mismatching `state`, an `error`
parameter, or a `code`; requests to other paths, and `/` requests with a
matching state but neither `code` nor `error`, are answered without closing
the listener. -/
theorem C6_close_condition (oauthState : Option String) (mw : Bool)
    (eo : RefreshOutcome) (req : CallbackRequest) :
    (oauthCallbackHandler oauthState mw eo req).serverClosed =
      (decide (req.pathname = "/")
        && (decide (req.state ≠ oauthState) || req.error.isSome || req.code.isSome)) := by
  unfold oauthCallbackHandler
  by_cases hp : req.pathname = "/" <;>
    by_cases hs : req.state = oauthState <;>
      rcases herr : req.error with _ | e <;>
        rcases hc : req.code with _ | c <;>
          simp [hp, hs, herr, hc]

/-- C7 counterexample: the inbound `setupComplete` frame produces no effect
at all — in particular no `setup_complete` event is emitted on the server's
acknowledgement. -/
theorem C7_setup_ack_counterexample :
    handleServerMessage ServerMessage.setupComplete = []
    ∧ AgentEffect.emit "setup_complete" ∉ handleServerMessage ServerMessage.setupComplete := by
  constructor
  · rfl
  · simp [handleServerMessage]

/-- C7 (amended): the `setup_complete` event is emitted when the agent
sends its setup frame on connection open, immediately after transmitting
it; the inbound `setupComplete` acknowledgement is only logged, and no
inbound frame ever triggers a `setup_complete` event. -/
theorem C7_setup_complete_on_send :
    onOpenEffects =
      [AgentEffect.wsSendSetup, AgentEffect.emit "setup_complete",
       AgentEffect.notifyRenderer "setup_complete", AgentEffect.emit "open"]
    ∧ handleServerMessage ServerMessage.setupComplete = []
    ∧ ∀ m : ServerMessage,
        (handleServerMessage m).count (AgentEffect.emit "setup_complete") = 0 := by
  refine ⟨rfl, rfl, fun m => ?_⟩
  cases m with
  | setupComplete => rfl
  | toolCall calls => exact toolCall_no_setup_complete calls
  | serverContent p => simp [handleServerMessage]
  | unrecognized => rfl

/-- C9 counterexample: two equal candidate sources are returned as two
equal entries — `processSources` does not deduplicate. -/
theorem C9_dedup_counterexample :
    processSources (fun _ => none)
      [{ title := some "BBC", uri := some "https://bbc.com/x", url := none },
       { title := some "BBC", uri := some "https://bbc.com/x", url := none }]
      = [{ title := "BBC", uri := "https://bbc.com/x" },
         { title := "BBC", uri := "https://bbc.com/x" }]
    ∧ ¬ (processSources (fun _ => none)
      [{ title := some "BBC", uri := some "https://bbc.com/x", url := none },
       { title := some "BBC", uri := some "https://bbc.com/x", url := none }]).Nodup := by
  constructor
  · rfl
  · decide

/-- C9 (amended): the source list attached to a result contains at most 5
entries (only the first five candidates are processed, and unresolved
internal redirect links are dropped), but it is not deduplicated: equal
candidates produce equal repeated entries. -/
theorem C9_capped_at_five (headResolve : String → Option String)
    (l : List RawSource) :
    (processSources headResolve l).length ≤ 5 := by
  calc (processSources headResolve l).length
      ≤ (l.take 5).length := List.length_filterMap_le _ _
    _ ≤ 5 := List.length_take_le 5 l

/-- C2: `getValidToken` returns the stored access token unchanged whenever
it stays valid for at least the 5-minute margin; performs a refresh and
returns its result whenever the margin is violated; returns `null` with no
credentials at all, with a needed refresh lacking a refresh token, and with
a failing refresh; and a pair stored with `expires_in = 3600` at `t = 0` is
refreshed by a call at `t = 3595s`. -/
theorem C2_getValidToken_contract (s : TMState) (now : Int) (o : RefreshOutcome) :
    (∀ tok e, s.accessToken = some tok → s.expiresAt = some e →
      REFRESH_BUFFER_MS ≤ e - now →
      getValidToken s now o = (s, some tok))
    ∧ ((s.accessToken ≠ none ∨ s.refreshToken ≠ none) →
        isExpiringSoon s now = true →
        getValidToken s now o = refreshAccessToken s now o)
    ∧ (s.accessToken = none → s.refreshToken = none →
        (getValidToken s now o).2 = none)
    ∧ (isExpiringSoon s now = true → s.refreshToken = none →
        (getValidToken s now o).2 = none)
    ∧ (isExpiringSoon s now = true → (∀ td, o ≠ RefreshOutcome.success td) →
        (getValidToken s now o).2 = none)
    ∧ (∀ s₀ a, isExpiringSoon
          (storeTokens s₀
            { access_token := a, refresh_token := some "r"
              expires_in := 3600, token_type := "Bearer" } 0) 3595000 = true
        ∧ getValidToken
            (storeTokens s₀
              { access_token := a, refresh_token := some "r"
                expires_in := 3600, token_type := "Bearer" } 0) 3595000 o
          = refreshAccessToken
              (storeTokens s₀
                { access_token := a, refresh_token := some "r"
                  expires_in := 3600, token_type := "Bearer" } 0) 3595000 o) := by
  refine ⟨?_, ?_, ?_, ?_, ?_, ?_⟩
  · intro tok e htok he hmargin
    have hexp : isExpiringSoon s now = false := by
      simp only [isExpiringSoon, he, decide_eq_false_iff_not, not_lt]
      omega
    have hcond : ¬(s.accessToken = none ∧ s.refreshToken = none) := by
      rintro ⟨h1, _⟩; rw [htok] at h1; exact Option.noConfusion h1
    simp [getValidToken, hcond, hexp, htok]
  · intro hsome hexp
    have hcond : ¬(s.accessToken = none ∧ s.refreshToken = none) := by
      rintro ⟨h1, h2⟩
      rcases hsome with h | h <;> exact h (by assumption)
    simp [getValidToken, hcond, hexp]
  · intro h1 h2
    simp [getValidToken, h1, h2]
  · intro hexp hrt
    have hres : refreshAccessToken s now o = (s, none) := by
      unfold refreshAccessToken; rw [hrt]
    by_cases hc : s.accessToken = none ∧ s.refreshToken = none
    · simp [getValidToken, hc.1, hc.2]
    · simp [getValidToken, hc, hexp, hres]
  · intro hexp ho
    have hres : (refreshAccessToken s now o).2 = none := by
      unfold refreshAccessToken
      cases hrt : s.refreshToken with
      | none => rfl
      | some r =>
          cases o with
          | networkError => rfl
          | httpError status => simp only; split <;> rfl
          | success td => exact absurd rfl (ho td)
    by_cases hc : s.accessToken = none ∧ s.refreshToken = none
    · simp [getValidToken, hc.1, hc.2]
    · simp [getValidToken, hc, hexp, hres]
  · intro s₀ a
    have hexp : isExpiringSoon
        (storeTokens s₀
          { access_token := a, refresh_token := some "r"
            expires_in := 3600, token_type := "Bearer" } 0) 3595000 = true := by
      norm_num [storeTokens, scheduleRefresh, isExpiringSoon, REFRESH_BUFFER_MS]
    refine ⟨hexp, ?_⟩
    have hcond : ¬((storeTokens s₀
        { access_token := a, refresh_token := some "r"
          expires_in := 3600, token_type := "Bearer" } 0).accessToken = none
        ∧ (storeTokens s₀
            { access_token := a, refresh_token := some "r"
              expires_in := 3600, token_type := "Bearer" } 0).refreshToken = none) := by
      rintro ⟨h1, _⟩
      norm_num [storeTokens, scheduleRefresh, REFRESH_BUFFER_MS] at h1
      exact Option.noConfusion h1
    simp [getValidToken, hcond, hexp]

/-- C2 witness: a concrete token pair within the margin is returned
unchanged, and the concrete 3595-second scenario triggers a refresh. -/
theorem C2_getValidToken_contract_witness :
    getValidToken
      { accessToken := some "A", refreshToken := some "r"
        expiresAt := some 3600000, refreshTimer := none
        immediateRefreshPending := false, fileExists := true } 0
      RefreshOutcome.networkError
      = ({ accessToken := some "A", refreshToken := some "r"
           expiresAt := some 3600000, refreshTimer := none
           immediateRefreshPending := false, fileExists := true }, some "A")
    ∧ getValidToken
        (storeTokens
          { accessToken := none, refreshToken := none, expiresAt := none
            refreshTimer := none, immediateRefreshPending := false, fileExists := false }
          { access_token := "A", refresh_token := some "r"
            expires_in := 3600, token_type := "Bearer" } 0) 3595000
        RefreshOutcome.networkError
      = refreshAccessToken
          (storeTokens
            { accessToken := none, refreshToken := none, expiresAt := none
              refreshTimer := none, immediateRefreshPending := false, fileExists := false }
            { access_token := "A", refresh_token := some "r"
              expires_in := 3600, token_type := "Bearer" } 0) 3595000
          RefreshOutcome.networkError := by
  constructor
  · exact (C2_getValidToken_contract
      { accessToken := some "A", refreshToken := some "r"
        expiresAt := some 3600000, refreshTimer := none
        immediateRefreshPending := false, fileExists := true } 0
      RefreshOutcome.networkError).1 "A" 3600000 rfl rfl (by decide)
  · exact ((C2_getValidToken_contract
      { accessToken := none, refreshToken := none, expiresAt := none
        refreshTimer := none, immediateRefreshPending := false, fileExists := false }
      3595000 RefreshOutcome.networkError).2.2.2.2.2
      { accessToken := none, refreshToken := none, expiresAt := none
        refreshTimer := none, immediateRefreshPending := false, fileExists := false } "A").2

/-- C3: a refresh answered with HTTP 400 or 401 clears the in-memory
tokens, cancels the refresh timer, deletes the persisted file and returns
`null` (after which `getValidToken` returns `null`); a thrown request or
any other non-2xx status leaves the state — including the file — untouched
and returns `null`. -/
theorem C3_refresh_error_handling (s : TMState) (now now' : Int)
    (status : Nat) (o' : RefreshOutcome) (hrt : s.refreshToken ≠ none) :
    ((status = 400 ∨ status = 401) →
      refreshAccessToken s now (RefreshOutcome.httpError status) = (clearTokens s, none)
      ∧ (clearTokens s).accessToken = none
      ∧ (clearTokens s).refreshToken = none
      ∧ (clearTokens s).refreshTimer = none
      ∧ (clearTokens s).fileExists = false
      ∧ (getValidToken (clearTokens s) now' o').2 = none)
    ∧ refreshAccessToken s now RefreshOutcome.networkError = (s, none)
    ∧ (¬(status = 400 ∨ status = 401) →
        refreshAccessToken s now (RefreshOutcome.httpError status) = (s, none)) := by
  rcases hr : s.refreshToken with _ | r
  · exact absurd hr hrt
  refine ⟨fun hst => ?_, ?_, fun hst => ?_⟩
  · refine ⟨?_, rfl, rfl, rfl, rfl, rfl⟩
    unfold refreshAccessToken
    rw [hr]
    simp only
    rw [if_pos hst]
  · unfold refreshAccessToken
    rw [hr]
  · unfold refreshAccessToken
    rw [hr]
    simp only
    rw [if_neg hst]

/-- C3 witness: a 401 on a concrete state wipes everything and a later
`getValidToken` yields `null`; a 500 leaves the state untouched. -/
theorem C3_refresh_error_handling_witness :
    refreshAccessToken
      { accessToken := some "A", refreshToken := some "r"
        expiresAt := some 1000, refreshTimer := some 500
        immediateRefreshPending := false, fileExists := true } 0
      (RefreshOutcome.httpError 401)
      = (clearTokens
          { accessToken := some "A", refreshToken := some "r"
            expiresAt := some 1000, refreshTimer := some 500
            immediateRefreshPending := false, fileExists := true }, none)
    ∧ (clearTokens
        { accessToken := some "A", refreshToken := some "r"
          expiresAt := some 1000, refreshTimer := some 500
          immediateRefreshPending := false, fileExists := true }).fileExists = false
    ∧ refreshAccessToken
        { accessToken := some "A", refreshToken := some "r"
          expiresAt := some 1000, refreshTimer := some 500
          immediateRefreshPending := false, fileExists := true } 0
        (RefreshOutcome.httpError 500)
      = ({ accessToken := some "A", refreshToken := some "r"
           expiresAt := some 1000, refreshTimer := some 500
           immediateRefreshPending := false, fileExists := true }, none) := by
  have h := C3_refresh_error_handling
    { accessToken := some "A", refreshToken := some "r"
      expiresAt := some 1000, refreshTimer := some 500
      immediateRefreshPending := false, fileExists := true } 0 0 401
    RefreshOutcome.networkError (by decide)
  have h500 := C3_refresh_error_handling
    { accessToken := some "A", refreshToken := some "r"
      expiresAt := some 1000, refreshTimer := some 500
      immediateRefreshPending := false, fileExists := true } 0 0 500
    RefreshOutcome.networkError (by decide)
  exact ⟨(h.1 (Or.inr rfl)).1, (h.1 (Or.inr rfl)).2.2.2.2.1,
    h500.2.2 (by decide)⟩

/-- C10: for a 2xx upstream response, `runFactCheck`'s result always has
`verdict`, `explanation` and `score`; a parsed object missing a field gets
`Unverified` / `No explanation provided.` / `0` as defaults, and a JSON
parse throw yields the fixed degraded fields, with non-empty present values
kept verbatim. -/
theorem C10_runFactCheck_defaults (jsonParse : String → Option FactJson)
    (headResolve : String → Option String) (candText : Option String)
    (gws : List (Option RawSource)) :
    (jsonParse ((extractJsonBlock (optFalsyD candText emptyJsonObject)).getD emptyJsonObject)
        = none →
      (runFactCheckFromResponse jsonParse headResolve candText gws).verdict = "Unverified"
      ∧ (runFactCheckFromResponse jsonParse headResolve candText gws).explanation
          = "Failed to parse model response."
      ∧ (runFactCheckFromResponse jsonParse headResolve candText gws).score = 0)
    ∧ (∀ r, jsonParse
          ((extractJsonBlock (optFalsyD candText emptyJsonObject)).getD emptyJsonObject)
          = some r →
        (r.verdict = none →
          (runFactCheckFromResponse jsonParse headResolve candText gws).verdict = "Unverified")
        ∧ (r.explanation = none →
            (runFactCheckFromResponse jsonParse headResolve candText gws).explanation
              = "No explanation provided.")
        ∧ (r.score = none →
            (runFactCheckFromResponse jsonParse headResolve candText gws).score = 0)
        ∧ (∀ v, r.verdict = some v → v ≠ "" →
            (runFactCheckFromResponse jsonParse headResolve candText gws).verdict = v)
        ∧ (∀ ex, r.explanation = some ex → ex ≠ "" →
            (runFactCheckFromResponse jsonParse headResolve candText gws).explanation = ex)) := by
  constructor
  · intro hnone
    simp only [runFactCheckFromResponse]
    rw [hnone]
    exact ⟨rfl, rfl, rfl⟩
  · intro r hsome
    simp only [runFactCheckFromResponse]
    rw [hsome]
    refine ⟨fun hv => ?_, fun he => ?_, fun hs => ?_, fun v hv hne => ?_, fun ex he hne => ?_⟩
    · simp only [hv, optFalsyD]
    · simp only [he, optFalsyD]
    · simp only [hs, intFalsyD]
    · simp only [hv, optFalsyD, if_neg hne]
    · simp only [he, optFalsyD, if_neg hne]

/-- C10 witness: with a parser seeing an object with every field missing,
all three defaults appear; with a parser that throws, the degraded fields
appear. -/
theorem C10_runFactCheck_defaults_witness :
    ((runFactCheckFromResponse
        (fun _ => some { verdict := none, explanation := none, score := none, sources := none })
        (fun _ => none) (some "x") []).verdict = "Unverified"
      ∧ (runFactCheckFromResponse
          (fun _ => some { verdict := none, explanation := none, score := none, sources := none })
          (fun _ => none) (some "x") []).explanation = "No explanation provided."
      ∧ (runFactCheckFromResponse
          (fun _ => some { verdict := none, explanation := none, score := none, sources := none })
          (fun _ => none) (some "x") []).score = 0)
    ∧ (runFactCheckFromResponse (fun _ => none)
        (fun _ => none) (some "x") []).explanation = "Failed to parse model response." := by
  constructor
  · have h := (C10_runFactCheck_defaults
      (fun _ => some { verdict := none, explanation := none, score := none, sources := none })
      (fun _ => none) (some "x") []).2
      { verdict := none, explanation := none, score := none, sources := none } rfl
    exact ⟨h.1 rfl, h.2.1 rfl, h.2.2.1 rfl⟩
  · exact ((C10_runFactCheck_defaults (fun _ => none) (fun _ => none) (some "x") []).1 rfl).2.1

/-- Helper: the empty string contains none of the redirect markers. -/
lemma containsSub_empty_google : containsSub "" "google.com/url" = false := by decide

/-- C8: source resolution is stable — a source whose URI is no redirect
wrapper and whose title is neither missing nor generic is returned
unchanged; a `google.com/url` wrapper has its embedded `url`/`q` parameter
extracted without consulting the HEAD-request oracle (the result is the
same for every oracle); and the two concrete scenarios resolve as the spec
states, with the title recomputed from the resolved hostname and a leading
`www.` stripped. -/
theorem C8_source_resolution (hr hr' : String → Option String) (t u : String)
    (ti : Option String) (ul : Option String) (uo : UrlObj) (e : String) :
    ((containsSub u "google.com/url" = false →
      containsSub u "vertexaisearch" = false →
      containsSub u "grounding-api-redirect" = false →
      t ≠ "" → containsSub t "google.com" = false → t ≠ "Quelle" →
      processSource hr { title := some t, uri := some u, url := none }
        = some { title := t, uri := u }))
    ∧ (containsSub u "google.com/url" = true →
       containsSub u "vertexaisearch" = false →
       containsSub u "grounding-api-redirect" = false →
       urlParse u = some uo → extractedParam uo = some e → e ≠ "" →
       containsSub e "vertexaisearch" = false →
       containsSub e "grounding-api-redirect" = false →
       processSource hr { title := ti, uri := some u, url := ul }
         = processSource hr' { title := ti, uri := some u, url := ul }
       ∧ ∃ r, processSource hr { title := ti, uri := some u, url := ul } = some r
           ∧ r.uri = e)
    ∧ processSources hr
        [{ title := none, uri := some "https://google.com/url?q=https://bbc.com/x", url := none }]
        = [{ title := "bbc.com", uri := "https://bbc.com/x" }]
    ∧ processSources hr
        [{ title := none, uri := some "https://www.bbc.com/x", url := none }]
        = [{ title := "bbc.com", uri := "https://www.bbc.com/x" }] := by
  refine ⟨?_, ?_, ?_, ?_⟩
  · intro h1 h2 h3 ht1 ht2 ht3
    have huri0 : optFalsyD (some u) (optFalsyD none "") = u := by
      by_cases hu : u = "" <;> simp [optFalsyD, hu]
    have htitle0 : optFalsyD (some t) "Quelle" = t := by simp [optFalsyD, ht1]
    simp only [processSource, huri0, htitle0, h1, h2, h3, Bool.or_self,
      Bool.or_false, Bool.false_or, Bool.false_and, Bool.and_self]
    rcases hup : urlParse u with _ | uo₀ <;>
      simp [hup, h2, h3, ht1, ht2, ht3]
  · intro h1 h2 h3 hup hext he hi1 hi2
    have hu_ne : u ≠ "" := by
      intro hu; rw [hu, containsSub_empty_google] at h1; exact Bool.noConfusion h1
    have huri0 : optFalsyD (some u) (optFalsyD ul "") = u := by
      simp [optFalsyD, hu_ne]
    have hres : ∀ hr₀ : String → Option String, resolveRedirect hr₀ u = e := by
      intro hr₀
      simp only [resolveRedirect, h1, if_true, hup, hext]
      simp only [if_neg he]
      simp only [headStep, hi1, hi2, Bool.or_self, Bool.false_or]
      rfl
    have hstep : ∀ hr₀ : String → Option String,
        processSource hr₀ { title := ti, uri := some u, url := ul }
          = some { title :=
              match urlParse e with
              | some u₀ =>
                  if ti = none ∨ ti = some ""
                      ∨ containsSub (ti.getD "") "google.com" = true
                      ∨ optFalsyD ti "Quelle" = "Quelle" then
                    replaceFirst u₀.hostname "www."
                  else optFalsyD ti "Quelle"
              | none => optFalsyD ti "Quelle", uri := e } := by
      intro hr₀
      simp only [processSource, huri0, h1, Bool.true_or, Bool.true_and]
      have hne' : (u != "") = true := by simp [hu_ne]
      simp only [hne', Bool.true_and, if_true, hres hr₀]
      simp only [hi1, hi2, Bool.or_self, Bool.false_or]
      rfl
    refine ⟨by rw [hstep hr, hstep hr'], ⟨_, hstep hr, rfl⟩⟩
  · rfl
  · rfl

/-- C8 witness: a concrete already-resolved source passes through unchanged
and the concrete redirect-wrapper scenario extracts the embedded URL. -/
theorem C8_source_resolution_witness :
    processSource (fun _ => none)
        { title := some "BBC News", uri := some "https://bbc.com/x", url := none }
      = some { title := "BBC News", uri := "https://bbc.com/x" }
    ∧ processSources (fun _ => none)
        [{ title := none, uri := some "https://google.com/url?q=https://bbc.com/x", url := none }]
        = [{ title := "bbc.com", uri := "https://bbc.com/x" }] := by
  have h := C8_source_resolution (fun _ => none) (fun _ => some "other")
    "BBC News" "https://bbc.com/x" none none
    { hostname := "bbc.com", query := [] } ""
  exact ⟨h.1 (by rfl) (by rfl) (by rfl) (by decide) (by rfl) (by decide),
    h.2.2.1⟩

/-- Helper: `markTerminal` keeps the recorded ids unchanged. -/
lemma markTerminal_keys (id : Nat) (l : List (Nat × SessStatus)) :
    (markTerminal id l).map Prod.fst = l.map Prod.fst := by
  unfold markTerminal
  rw [List.map_map]
  apply List.map_congr_left
  intro p _
  by_cases h : p.1 = id <;> simp [h]

/-- Helper: a non-terminal entry of `markTerminal id l` is an entry of `l`
whose id is not `id`. -/
lemma markTerminal_nonterminal {id : Nat} {l : List (Nat × SessStatus)}
    {p : Nat × SessStatus} (hp : p ∈ markTerminal id l)
    (hnt : p.2 = SessStatus.nonTerminal) : p ∈ l ∧ p.1 ≠ id := by
  unfold markTerminal at hp
  obtain ⟨q, hq, hq2⟩ := List.mem_map.mp hp
  by_cases h : q.1 = id
  · rw [if_pos h] at hq2
    rw [← hq2] at hnt
    exact absurd hnt (by simp)
  · rw [if_neg h] at hq2
    rw [hq2] at hq h
    exact ⟨hq, h⟩

/-- Helper: a nodup list whose entries are all equal has at most one entry. -/
lemma length_le_one_of_nodup_const {α : Type} {xs : List α} {a : α}
    (hn : xs.Nodup) (hall : ∀ x ∈ xs, x = a) : xs.length ≤ 1 := by
  match xs with
  | [] => simp
  | [x] => simp
  | x :: y :: rest =>
      have hx := hall x (by simp)
      have hy := hall y (by simp)
      rw [hx, hy] at hn
      simp at hn

/-- Helper: under the main-process invariant at most one recorded session is
non-terminal. -/
lemma nonTerminalCount_le_one (st : MainState) (h : MainInv st) :
    nonTerminalCount st.statuses ≤ 1 := by
  obtain ⟨hagent, hnodup, -⟩ := h
  unfold nonTerminalCount
  cases hag : st.listeningAgent with
  | none =>
      have : st.statuses.filter (fun p => p.2 = SessStatus.nonTerminal) = [] := by
        apply List.filter_eq_nil_iff.mpr
        intro p hp hpn
        have := hagent p hp (by simpa using hpn)
        rw [hag] at this
        exact Option.noConfusion this
      rw [this]
      simp
  | some aid =>
      have hsub : (st.statuses.filter (fun p => p.2 = SessStatus.nonTerminal)).Sublist
          st.statuses := List.filter_sublist _
      have hnodup' : ((st.statuses.filter
          (fun p => p.2 = SessStatus.nonTerminal)).map Prod.fst).Nodup :=
        List.Nodup.sublist (hsub.map Prod.fst) hnodup
      have hall : ∀ x ∈ (st.statuses.filter
          (fun p => p.2 = SessStatus.nonTerminal)).map Prod.fst, x = aid := by
        intro x hx
        obtain ⟨p, hp, hpx⟩ := List.mem_map.mp hx
        obtain ⟨hpl, hpn⟩ := List.mem_filter.mp hp
        have := hagent p hpl (by simpa using hpn)
        rw [hag] at this
        rw [← hpx]
        exact (Option.some.inj this).symm
      calc (st.statuses.filter (fun p => p.2 = SessStatus.nonTerminal)).length
          = ((st.statuses.filter
              (fun p => p.2 = SessStatus.nonTerminal)).map Prod.fst).length := by
            rw [List.length_map]
        _ ≤ 1 := length_le_one_of_nodup_const hnodup' hall

/-- Computation: starting with no live agent and no token does nothing. -/
lemma startSessionHandler_none_none (st : MainState)
    (hag : st.listeningAgent = none) :
    startSessionHandler st none = (st, []) := by
  simp [startSessionHandler, hag]

/-- Computation: starting with no live agent and a valid token creates and
connects a fresh agent. -/
lemma startSessionHandler_none_some (st : MainState) (t : String)
    (hag : st.listeningAgent = none) :
    startSessionHandler st (some t) =
      ({ listeningAgent := some st.nextId, nextId := st.nextId + 1
         statuses := (st.nextId, SessStatus.nonTerminal) :: st.statuses },
       [SessAction.create st.nextId, SessAction.connect st.nextId]) := by
  simp [startSessionHandler, hag]

/-- Computation: starting with a live agent and no token only disconnects. -/
lemma startSessionHandler_some_none (st : MainState) (oldId : Nat)
    (hag : st.listeningAgent = some oldId) :
    startSessionHandler st none =
      ({ listeningAgent := none, nextId := st.nextId
         statuses := markTerminal oldId st.statuses },
       [SessAction.disconnect oldId]) := by
  simp [startSessionHandler, hag]

/-- Computation: starting with a live agent and a valid token disconnects
the old agent first, then creates and connects a fresh one. -/
lemma startSessionHandler_some_some (st : MainState) (oldId : Nat) (t : String)
    (hag : st.listeningAgent = some oldId) :
    startSessionHandler st (some t) =
      ({ listeningAgent := some st.nextId, nextId := st.nextId + 1
         statuses := (st.nextId, SessStatus.nonTerminal) :: markTerminal oldId st.statuses },
       [SessAction.disconnect oldId, SessAction.create st.nextId,
        SessAction.connect st.nextId]) := by
  simp [startSessionHandler, hag]

/-- Helper: membership in `markTerminal` keeps ids below the fresh-id
counter. -/
lemma markTerminal_fresh {st : MainState} (oldId : Nat)
    (hfresh : ∀ p ∈ st.statuses, p.1 < st.nextId) :
    ∀ p ∈ markTerminal oldId st.statuses, p.1 < st.nextId := by
  intro p hp
  have hmem : p.1 ∈ (markTerminal oldId st.statuses).map Prod.fst :=
    List.mem_map_of_mem Prod.fst hp
  rw [markTerminal_keys] at hmem
  obtain ⟨q, hq, hq1⟩ := List.mem_map.mp hmem
  exact hq1 ▸ hfresh q hq

/-- Helper: the `start-session` handler preserves the main-process
invariant. -/
lemma startSessionHandler_inv (st : MainState) (tok : Option String)
    (h : MainInv st) : MainInv (startSessionHandler st tok).1 := by
  obtain ⟨hagent, hnodup, hfresh⟩ := h
  cases hag : st.listeningAgent with
  | none =>
      cases tok with
      | none =>
          rw [startSessionHandler_none_none st hag]
          exact ⟨hagent, hnodup, hfresh⟩
      | some t =>
          rw [startSessionHandler_none_some st t hag]
          refine ⟨?_, ?_, ?_⟩
          · intro p hp hnt
            rcases List.mem_cons.mp hp with rfl | hp'
            · rfl
            · have := hagent p hp' hnt
              rw [hag] at this
              exact absurd this (by simp)
          · simp only [List.map_cons]
            refine List.Nodup.cons ?_ hnodup
            intro hmem
            obtain ⟨q, hq, hq1⟩ := List.mem_map.mp hmem
            exact absurd (hq1 ▸ hfresh q hq) (by simp)
          · intro p hp
            rcases List.mem_cons.mp hp with rfl | hp'
            · exact Nat.lt_succ_self _
            · exact Nat.lt_succ_of_lt (hfresh p hp')
  | some oldId =>
      cases tok with
      | none =>
          rw [startSessionHandler_some_none st oldId hag]
          refine ⟨?_, ?_, ?_⟩
          · intro p hp hnt
            obtain ⟨hpl, hpne⟩ := markTerminal_nonterminal hp hnt
            have := hagent p hpl hnt
            rw [hag] at this
            exact absurd (Option.some.inj this).symm hpne
          · show ((markTerminal oldId st.statuses).map Prod.fst).Nodup
            rw [markTerminal_keys]
            exact hnodup
          · exact markTerminal_fresh oldId hfresh
      | some t =>
          rw [startSessionHandler_some_some st oldId t hag]
          refine ⟨?_, ?_, ?_⟩
          · intro p hp hnt
            rcases List.mem_cons.mp hp with rfl | hp'
            · rfl
            · obtain ⟨hpl, hpne⟩ := markTerminal_nonterminal hp' hnt
              have := hagent p hpl hnt
              rw [hag] at this
              exact absurd (Option.some.inj this).symm hpne
          · simp only [List.map_cons]
            refine List.Nodup.cons ?_ (by rw [markTerminal_keys]; exact hnodup)
            intro hmem
            rw [markTerminal_keys] at hmem
            obtain ⟨q, hq, hq1⟩ := List.mem_map.mp hmem
            exact absurd (hq1 ▸ hfresh q hq) (by simp)
          · intro p hp
            rcases List.mem_cons.mp hp with rfl | hp'
            · exact Nat.lt_succ_self _
            · exact Nat.lt_succ_of_lt (markTerminal_fresh oldId hfresh p hp')

/-- C1: starting a session preserves the invariant that at most one
`ListeningAgent` is non-terminal, and on two consecutive `start-session`
requests the handler's step sequence disconnects the previous agent first:
with no valid token the trace is just that disconnect, and with a valid
token the disconnect strictly precedes the creation and connection of the
fresh agent. -/
theorem C1_at_most_one_live_session (st : MainState) (tok : Option String)
    (h : MainInv st) :
    MainInv (startSessionHandler st tok).1
    ∧ nonTerminalCount (startSessionHandler st tok).1.statuses ≤ 1
    ∧ (∀ id, st.listeningAgent = some id → tok = none →
        (startSessionHandler st tok).2 = [SessAction.disconnect id])
    ∧ (∀ id t, st.listeningAgent = some id → tok = some t →
        (startSessionHandler st tok).2 =
          [SessAction.disconnect id, SessAction.create st.nextId,
           SessAction.connect st.nextId]) := by
  refine ⟨startSessionHandler_inv st tok h, ?_, ?_, ?_⟩
  · exact nonTerminalCount_le_one _ (startSessionHandler_inv st tok h)
  · intro id hag htok
    subst htok
    rw [startSessionHandler_some_none st id hag]
  · intro id t hag htok
    subst htok
    rw [startSessionHandler_some_some st id t hag]

/-- C1 witness: from a concrete state with one live session, a second
`start-session` with a valid token first disconnects session 0 and only
then creates and connects session 1. -/
theorem C1_at_most_one_live_session_witness :
    (startSessionHandler
      { listeningAgent := some 0, nextId := 1, statuses := [(0, SessStatus.nonTerminal)] }
      (some "tok")).2 =
      [SessAction.disconnect 0, SessAction.create 1, SessAction.connect 1]
    ∧ nonTerminalCount (startSessionHandler
        { listeningAgent := some 0, nextId := 1, statuses := [(0, SessStatus.nonTerminal)] }
        (some "tok")).1.statuses ≤ 1 := by
  have h := C1_at_most_one_live_session
    { listeningAgent := some 0, nextId := 1, statuses := [(0, SessStatus.nonTerminal)] }
    (some "tok") (by refine ⟨?_, by decide, by decide⟩; decide)
  exact ⟨h.2.2.2 0 "tok" rfl rfl, h.2.1⟩

/-- Computation: with an initialized client the model-3 try yields
`m3Result` and records one model-3 call. -/
lemma attempt3_spec (env : VerifyEnv) (h : env.clientOk = true)
    (tr : List String) :
    attempt3 env tr = (Except.ok (m3Result env), tr ++ [model3Name]) := by
  cases hm : env.m3 with
  | thrown m =>
      simp [attempt3, m3Result, generateContent, h, hm, jsCatch, jsBind,
        jsPure, jsThrow, recordCall]
  | ok t g =>
      simp only [attempt3, m3Result, generateContent, h, hm, if_true,
        jsCatch, jsBind, jsPure, jsThrow, recordCall]
      cases parseTextVerificationResult (optFalsyD t "") <;> rfl

/-- Computation: with an uninitialized client the model-3 try is caught
without any upstream call. -/
lemma attempt3_clientFalse (env : VerifyEnv) (h : env.clientOk = false)
    (tr : List String) : attempt3 env tr = (Except.ok none, tr) := by
  simp [attempt3, generateContent, h, jsCatch, jsBind, jsPure, jsThrow]

/-- Computation: with an initialized client one caught fallback attempt
yields `m2Result` and records one model-2 call. -/
lemma m2try_spec (env : VerifyEnv) (h : env.clientOk = true) (i : Nat)
    (tr : List String) :
    jsCatch (jsBind (m2AttemptBody env i) fun v => jsPure (some v))
        (fun _ => jsPure none) tr
      = (Except.ok (m2Result env i), tr ++ [model2Name]) := by
  cases hm : env.m2 i with
  | thrown m =>
      simp [m2AttemptBody, m2Result, generateContent, h, hm, jsCatch, jsBind,
        jsPure, jsThrow, recordCall]
  | ok t g =>
      simp only [m2AttemptBody, m2Result, generateContent, h, hm, if_true,
        jsCatch, jsBind, jsPure, jsThrow, recordCall]
      cases env.jsonParse ((extractJsonBlock (optFalsyD t emptyJsonObject)).getD
        emptyJsonObject) <;> rfl

/-- Computation: with an uninitialized client one caught fallback attempt is
a no-op. -/
lemma m2try_clientFalse (env : VerifyEnv) (h : env.clientOk = false) (i : Nat)
    (tr : List String) :
    jsCatch (jsBind (m2AttemptBody env i) fun v => jsPure (some v))
        (fun _ => jsPure none) tr
      = (Except.ok none, tr) := by
  simp [m2AttemptBody, generateContent, h, jsCatch, jsBind, jsPure, jsThrow]

/-- Computation: one step of the fallback loop with an initialized client. -/
lemma m2Loop_step (env : VerifyEnv) (h : env.clientOk = true) (a n : Nat)
    (tr : List String) :
    m2Loop env a (n + 1) tr =
      match m2Result env a with
      | some v => (Except.ok (some v), tr ++ [model2Name])
      | none => m2Loop env (a + 1) n (tr ++ [model2Name]) := by
  have hm := m2try_spec env h a tr
  simp only [m2Loop, jsBind, hm]
  cases m2Result env a <;> rfl

/-- Computation: one step of the fallback loop with an uninitialized
client. -/
lemma m2Loop_step_clientFalse (env : VerifyEnv) (h : env.clientOk = false)
    (a n : Nat) (tr : List String) :
    m2Loop env a (n + 1) tr = m2Loop env (a + 1) n tr := by
  have hm := m2try_clientFalse env h a tr
  simp only [m2Loop, jsBind, hm]

/-- Computation: the three-attempt fallback loop with an initialized
client, in closed form. -/
lemma m2Loop3_spec (env : VerifyEnv) (h : env.clientOk = true)
    (tr : List String) :
    m2Loop env 0 3 tr =
      (Except.ok (match m2Result env 0 with
        | some v => some v
        | none => match m2Result env 1 with
          | some v => some v
          | none => m2Result env 2),
       match m2Result env 0 with
       | some _ => tr ++ [model2Name]
       | none => match m2Result env 1 with
         | some _ => tr ++ [model2Name, model2Name]
         | none => tr ++ [model2Name, model2Name, model2Name]) := by
  have e0 : m2Loop env 0 3 tr = m2Loop env 0 (2 + 1) tr := rfl
  rw [e0, m2Loop_step env h 0 2 tr]
  cases m2Result env 0 with
  | some v => rfl
  | none =>
      have e1 : m2Loop env (0 + 1) 2 (tr ++ [model2Name])
          = m2Loop env 1 (1 + 1) (tr ++ [model2Name]) := rfl
      rw [e1, m2Loop_step env h 1 1 (tr ++ [model2Name])]
      cases m2Result env 1 with
      | some v => simp
      | none =>
          have e2 : m2Loop env (1 + 1) 1 (tr ++ [model2Name] ++ [model2Name])
              = m2Loop env 2 (0 + 1) (tr ++ [model2Name] ++ [model2Name]) := rfl
          rw [e2, m2Loop_step env h 2 0 (tr ++ [model2Name] ++ [model2Name])]
          cases m2Result env 2 with
          | some v => simp
          | none => simp [m2Loop, jsPure]

/-- C4: `verifyClaimWithSearch` never throws to its caller (for every
upstream behaviour the run ends in a normal return); with an initialized
client the trace holds exactly one fail-fast model-3 call and at most three
model-2 calls; and when the model-3 attempt and all three fallback attempts
fail — thrown calls or malformed JSON alike — the returned value is the
degraded `Unverified`/score-0 result. -/
theorem C4_verify_fallback_contract (env : VerifyEnv) :
    (∃ v tr, verifyClaimWithSearch env [] = (Except.ok v, tr))
    ∧ (env.clientOk = true →
        (verifyClaimWithSearch env []).2.count model3Name = 1
        ∧ (verifyClaimWithSearch env []).2.count model2Name ≤ 3)
    ∧ (m3Result env = none → m2Result env 0 = none → m2Result env 1 = none →
        m2Result env 2 = none →
        (verifyClaimWithSearch env []).1 = Except.ok degradedReturn) := by
  by_cases h : env.clientOk = true
  · have ha := attempt3_spec env h []
    rcases h0 : m3Result env with _ | v
    on_goal 2 =>
      have hver : verifyClaimWithSearch env [] = (Except.ok v, [model3Name]) := by
        simp [verifyClaimWithSearch, jsBind, ha, h0, jsPure]
      refine ⟨⟨v, [model3Name], hver⟩, fun _ => ?_, ?_⟩
      · rw [hver]; constructor <;> simp [model3Name, model2Name]
      · exact fun hq _ _ _ => Option.noConfusion hq
    have hl := m2Loop3_spec env h [model3Name]
    rcases h1 : m2Result env 0 with _ | v
    on_goal 2 =>
      have hver : verifyClaimWithSearch env []
          = (Except.ok v, [model3Name, model2Name]) := by
        rw [h1] at hl
        simp [verifyClaimWithSearch, jsBind, ha, h0, hl, jsPure]
      refine ⟨⟨v, _, hver⟩, fun _ => ?_, ?_⟩
      · rw [hver]; constructor <;> simp [model3Name, model2Name]
      · exact fun _ hq _ _ => Option.noConfusion hq
    rcases h2 : m2Result env 1 with _ | v
    on_goal 2 =>
      have hver : verifyClaimWithSearch env []
          = (Except.ok v, [model3Name, model2Name, model2Name]) := by
        rw [h1, h2] at hl
        simp [verifyClaimWithSearch, jsBind, ha, h0, hl, jsPure]
      refine ⟨⟨v, _, hver⟩, fun _ => ?_, ?_⟩
      · rw [hver]; constructor <;> simp [model3Name, model2Name]
      · exact fun _ _ hq _ => Option.noConfusion hq
    rcases h3 : m2Result env 2 with _ | v
    · have hver : verifyClaimWithSearch env []
          = (Except.ok degradedReturn,
             [model3Name, model2Name, model2Name, model2Name]) := by
        rw [h1, h2, h3] at hl
        simp [verifyClaimWithSearch, jsBind, ha, h0, hl, jsPure]
      refine ⟨⟨degradedReturn, _, hver⟩, fun _ => ?_, fun _ _ _ _ => ?_⟩
      · rw [hver]; constructor <;> simp [model3Name, model2Name]
      · rw [hver]
    · have hver : verifyClaimWithSearch env []
          = (Except.ok v, [model3Name, model2Name, model2Name, model2Name]) := by
        rw [h1, h2, h3] at hl
        simp [verifyClaimWithSearch, jsBind, ha, h0, hl, jsPure]
      refine ⟨⟨v, _, hver⟩, fun _ => ?_, ?_⟩
      · rw [hver]; constructor <;> simp [model3Name, model2Name]
      · exact fun _ _ _ hq => Option.noConfusion hq
  · have h' : env.clientOk = false := by
      cases hc : env.clientOk
      · rfl
      · exact absurd hc h
    have hver : verifyClaimWithSearch env [] =
        (Except.ok degradedReturn, []) := by
      have ha := attempt3_clientFalse env h' []
      simp only [verifyClaimWithSearch, jsBind, ha]
      rw [m2Loop_step_clientFalse env h' 0 2 [],
        m2Loop_step_clientFalse env h' 1 1 [],
        m2Loop_step_clientFalse env h' 2 0 []]
      rfl
    refine ⟨⟨degradedReturn, [], hver⟩, fun hc => absurd hc h, fun _ _ _ _ => ?_⟩
    rw [hver]

/-- C4 witness: with an initialized client whose model-3 call throws and
whose fallback responses are malformed JSON (`JSON.parse` throws on every
extracted block), the trace shows one model-3 call and three model-2 calls
and the run returns the degraded result normally. -/
theorem C4_verify_fallback_contract_witness :
    (verifyClaimWithSearch
        { clientOk := true, m3 := GenOutcome.thrown "boom"
          m2 := fun _ => GenOutcome.ok (some "oops") []
          jsonParse := fun _ => none } []).2.count model3Name = 1
    ∧ (verifyClaimWithSearch
        { clientOk := true, m3 := GenOutcome.thrown "boom"
          m2 := fun _ => GenOutcome.ok (some "oops") []
          jsonParse := fun _ => none } []).2.count model2Name ≤ 3
    ∧ (verifyClaimWithSearch
        { clientOk := true, m3 := GenOutcome.thrown "boom"
          m2 := fun _ => GenOutcome.ok (some "oops") []
          jsonParse := fun _ => none } []).1 = Except.ok degradedReturn := by
  have h := C4_verify_fallback_contract
    { clientOk := true, m3 := GenOutcome.thrown "boom"
      m2 := fun _ => GenOutcome.ok (some "oops") []
      jsonParse := fun _ => none }
  exact ⟨(h.2.1 rfl).1, (h.2.1 rfl).2, h.2.2 rfl rfl rfl rfl⟩

end Verifiy
